import Mathlib

/- Shallow embedding of src/main.py from the content-moderation repository.

   The program is a thin client around two external endpoints:
   - the moderation endpoint (`bedrock_runtime.apply_guardrail`), whose response
     is a structured JSON object (a Python dict);
   - the judge-model endpoint (`bedrock_runtime.converse`), whose reply carries
     a first text segment that is expected to be exactly the string
     "GUARDRAIL_INTERVENED" or "NONE".

   External effects are modelled by an `Env` of oracles (endpoint responses and
   the filesystem); each embedded function returns its result paired with the
   number of endpoint invocations it performed.  The unbounded retry loop of
   `guard_nova_text` / `guard_nova_image` is modelled with explicit fuel: a
   result of `none` means the loop did not return within `fuel` iterations
   (so divergence is `none` at every fuel). -/

namespace Moderation

/- Raw image bytes (Python `bytes`). -/
abbrev Blob := List Nat

/- A transport/service error raised by the AWS SDK call itself
   (e.g. botocore ClientError). -/
structure TransportError where
  msg : String
deriving DecidableEq, Repr

/- Python exceptions that the embedded code can raise to its caller. -/
inductive PyError where
  /- `ValueError` raised by the size check in guard_image (src/main.py:63). -/
  | valueError (msg : String)
  /- an SDK error propagating out of an endpoint call. -/
  | transport (e : TransportError)
deriving DecidableEq, Repr

/- A Python value as far as the embedded code inspects one: the moderation
   endpoint returns a JSON object (dict); the code compares such a value with
   string literals using Python `==`. -/
inductive PyVal where
  | str (s : String)
  | dict (entries : List (String × PyVal))

/- Python `==` between a value and a string literal, as used at
   src/main.py:311 and src/main.py:297 (`text_result == 'GUARDRAIL_INTERVENED'`).
   In Python a dict never compares equal to a str, so the dict case is False;
   two strs compare by character content. -/
def PyVal.eqStr : PyVal → String → Bool
  | .str a, b => a == b
  | .dict _, _ => false

/- Outcome of one `converse` call to the judge-model endpoint. -/
inductive JudgeOutcome where
  /- the call returned and `response['output']['message']['content'][0]['text']`
     is `result_text`. -/
  | reply (result_text : String)
  /- the call raised a transport/service error. -/
  | err (e : TransportError)
deriving DecidableEq, Repr

/- Guardrail limits image file size up to 4 MB (src/main.py:21). -/
def MAX_IMAGE_SIZE : Nat := 4 * 1024 * 1024

/- The fixed system prompt sent to the judge model (src/main.py:82-144). -/
def SYSTEM_PROMPT : String :=
";; You are a Guardrails judge, making judgements based on the given functions
;; First, define our main guardrailing check function.
;; It strictly returns only \"GUARDRAIL_INTERVENED\" or \"NONE\".
(defun guardrail-check (content)
  \"Evaluate CONTENT against guardrailing rules, returning only:
   - \\\"GUARDRAIL_INTERVENED\\\" if any rule is violated,
   - \\\"NONE\\\" otherwise.
   No other values are returned.\"
  (cond
    ;; Hate speech or discrimination
    ((hate-speech-or-discrimination-p content)
     \"GUARDRAIL_INTERVENED\")

    ;; Explicit sexual content
    ((explicit-sexual-content-p content)
     \"GUARDRAIL_INTERVENED\")

    ;; Illegal activities
    ((illegal-activities-p content)
     \"GUARDRAIL_INTERVENED\")

    ;; Violence or gore
    ((violence-or-gore-p content)
     \"GUARDRAIL_INTERVENED\")

    ;; Misinformation or conspiracy theories
    ((misinformation-or-conspiracy-p content)
     \"GUARDRAIL_INTERVENED\")

    ;; Harassment or bullying
    ((harassment-or-bullying-p content)
     \"GUARDRAIL_INTERVENED\")

    ;; Sensitive personal information
    ((sensitive-personal-info-p content)
     \"GUARDRAIL_INTERVENED\")

    ;; Spam or commercial content
    ((spam-or-commercial-content-p content)
     \"GUARDRAIL_INTERVENED\")

    ;; Impersonation
    ((impersonation-p content)
     \"GUARDRAIL_INTERVENED\")

    ;; Intellectual property infringement
    ((intellectual-property-infringement-p content)
     \"GUARDRAIL_INTERVENED\")

    ;; If none of the rules are violated:
    (t \"NONE\")))

;; Next, define a function that repeats guardrail-check until
;; we get either \"GUARDRAIL_INTERVENED\" or \"NONE\".
(defun guardrail-check-with-loop (content)
  \"Repeatedly call guardrail-check on CONTENT until the result
   is either \\\"GUARDRAIL_INTERVENED\\\" or \\\"NONE\\\". Returns the result.\"
  (loop
     with result = (guardrail-check content)
     while (not (or (string= result \"GUARDRAIL_INTERVENED\")
                    (string= result \"NONE\")))
     do (setf result (guardrail-check content))
     finally (return result)))"

/- Inference parameters `inf_params` plus the `topK` field of
   `additionalModelRequestFields` (src/main.py:168-173, 236-241). -/
structure InfParams where
  maxTokens : Nat
  topP : Rat
  temperature : Rat
  topK : Nat
deriving DecidableEq, Repr

def inf_params : InfParams :=
  { maxTokens := 300, topP := 1, temperature := 0, topK := 1 }

/- The request guard_nova_text sends to `converse` (src/main.py:146-173). -/
structure NovaTextRequest where
  system : String
  userText : String
  params : InfParams
deriving DecidableEq, Repr

def guard_nova_text_request (guard_content : String) : NovaTextRequest :=
  { system := SYSTEM_PROMPT
    userText :=
      "In your answer, include only GUARDRAIL_INTERVENED or NONE in plain text. Do not include any other character.\ncontent= \"" ++ guard_content ++ "\"\n (guardrail-check-with-loop content)"
    params := inf_params }

/- The typed image content block (src/main.py:224-231). -/
structure ImageBlock where
  format : String
  bytes : Blob
deriving DecidableEq, Repr

/- The request guard_nova_image sends to `converse` (src/main.py:206-241).
   Note src/main.py:226 hardcodes the format tag to the literal 'jpeg';
   the `img_format` argument is not consulted. -/
structure NovaImageRequest where
  system : String
  userText : String
  image : ImageBlock
  params : InfParams
deriving DecidableEq, Repr

def guard_nova_image_request (guard_blob : Blob) (img_format : String) : NovaImageRequest :=
  { system := SYSTEM_PROMPT
    userText :=
      "In your answer, include only GUARDRAIL_INTERVENED or NONE in plain text. Do not include any other character.\ncontent= image\n(guardrail-check-with-loop content)"
    image := { format := "jpeg", bytes := guard_blob }
    params := inf_params }

/- The environment of external collaborators: the two endpoints and the local
   filesystem.  The moderation endpoint always answers with a JSON object,
   given here by its entry list; the judge endpoints answer each request with
   a sequence of outcomes, one per (retried) attempt — the embedded code sends
   the identical request on every retry, so attempt number indexes the
   sequence. -/
structure Env where
  modText : String → Except TransportError (List (String × PyVal))
  modImage : Blob → String → Except TransportError (List (String × PyVal))
  judgeText : NovaTextRequest → Nat → JudgeOutcome
  judgeImage : NovaImageRequest → Nat → JudgeOutcome
  fs : String → Option Blob

/- guard_text (src/main.py:41-57): one apply_guardrail call; the raw structured
   response (a dict) is returned as-is — it is not reduced to a verdict
   string. -/
def guard_text_fn (env : Env) (guard_content : String) : Except TransportError PyVal :=
  (env.modText guard_content).map PyVal.dict

/- The ValueError message built at src/main.py:63. -/
def sizeErrMsg (image_size : Nat) : String :=
  s!"Image size ({image_size} bytes) exceeds the maximum allowed size ({MAX_IMAGE_SIZE} bytes)"

/- guard_image (src/main.py:59-80): checks the byte length against
   MAX_IMAGE_SIZE before any request; past the check, one apply_guardrail call
   whose raw structured response is returned as-is.  Second component counts
   the apply_guardrail invocations performed. -/
def guard_image_fn (env : Env) (guard_blob : Blob) (img_format : String) :
    Except PyError PyVal × Nat :=
  let image_size := guard_blob.length
  if MAX_IMAGE_SIZE < image_size then
    (.error (.valueError (sizeErrMsg image_size)), 0)
  else
    match env.modImage guard_blob img_format with
    | .ok entries => (.ok (PyVal.dict entries), 1)
    | .error e => (.error (.transport e), 1)

/- The membership test `result_text in ('GUARDRAIL_INTERVENED', 'NONE')`
   (src/main.py:194, 262). -/
def validToken (result_text : String) : Bool :=
  result_text == "GUARDRAIL_INTERVENED" || result_text == "NONE"

/- The `while True` validate-and-retry loop shared verbatim by guard_nova_text
   (src/main.py:175-204) and guard_nova_image (src/main.py:243-272):
   call the endpoint; a transport error is logged and re-raised at once; a
   reply whose first text segment is a valid token is returned; any other
   reply is logged and the identical request retried.  `fuel` bounds the
   number of iterations modelled: result `none` means the loop had not
   returned after `fuel` calls (the code itself has no bound).  The second
   component counts the `converse` invocations performed. -/
def nova_retry_loop (replies : Nat → JudgeOutcome) :
    Nat → Option (Except PyError String) × Nat
  | 0 => (none, 0)
  | fuel + 1 =>
    match replies 0 with
    | .err e => (some (.error (.transport e)), 1)
    | .reply t =>
      if validToken t then
        (some (.ok t), 1)
      else
        let r := nova_retry_loop (fun n => replies (n + 1)) fuel
        (r.1, r.2 + 1)

/- guard_nova_text (src/main.py:146-204). -/
def guard_nova_text (env : Env) (guard_content : String) (fuel : Nat) :
    Option (Except PyError String) × Nat :=
  nova_retry_loop (env.judgeText (guard_nova_text_request guard_content)) fuel

/- guard_nova_image (src/main.py:206-272). -/
def guard_nova_image (env : Env) (guard_blob : Blob) (img_format : String) (fuel : Nat) :
    Option (Except PyError String) × Nat :=
  nova_retry_loop (env.judgeImage (guard_nova_image_request guard_blob img_format)) fuel

/- The decision record built by guard: the Python dict
   `{'guardrails': ..., 'nova': ...}` (src/main.py:306). -/
structure Decision where
  guardrails : String
  nova : String
deriving DecidableEq, Repr

/- Endpoint invocation counts accumulated over one embedded call. -/
structure Calls where
  modText : Nat
  modImage : Nat
  judgeText : Nat
  judgeImage : Nat
deriving DecidableEq, Repr

def Calls.zero : Calls := ⟨0, 0, 0, 0⟩

/- Python substring containment, `needle in haystack`. -/
def listStartsWith : List Char → List Char → Bool
  | [], _ => true
  | _ :: _, [] => false
  | a :: as, b :: bs => a == b && listStartsWith as bs

def strIn (needle haystack : String) : Bool :=
  (List.range (haystack.length + 1)).any fun i =>
    listStartsWith needle.data (haystack.data.drop i)

/- Python str.lower(), character by character (the paths involved are
   ASCII). -/
def strLower (s : String) : String := ⟨s.data.map Char.toLower⟩

/- The extension determination of handle_image (src/main.py:285-289):
   case-insensitive substring match on the path; jpg/jpeg map to 'jpeg',
   png to 'png', anything else is unsupported (`None`). -/
def decide_ext (img_path : String) : Option String :=
  if strIn "jpg" (strLower img_path) || strIn "jpeg" (strLower img_path) then some "jpeg"
  else if strIn "png" (strLower img_path) then some "png"
  else none

/- handle_image (src/main.py:274-302): missing file or unsupported extension
   logs a warning and returns with the decision untouched; otherwise the file
   bytes go through guard_image and guard_nova_image, each result being
   compared with 'GUARDRAIL_INTERVENED' to possibly set the corresponding
   decision key.  Returns the updated decision (the Python code mutates the
   caller's dict in place), or the escaping exception, or `none` when the
   judge retry loop did not return within `fuel`; paired with the endpoint
   calls made. -/
def handle_image (env : Env) (decision : Decision) (img_path : String) (fuel : Nat) :
    Option (Except PyError Decision) × Calls :=
  match env.fs img_path with
  | none => (some (.ok decision), Calls.zero)
  | some img_blob =>
    match decide_ext img_path with
    | none => (some (.ok decision), Calls.zero)
    | some ext =>
      match guard_image_fn env img_blob ext with
      | (.error e, m) => (some (.error e), { Calls.zero with modImage := m })
      | (.ok img_result, m) =>
        let decision :=
          if PyVal.eqStr img_result "GUARDRAIL_INTERVENED" then
            { decision with guardrails := "GUARDRAIL_INTERVENED" }
          else decision
        match guard_nova_image env img_blob ext fuel with
        | (none, j) => (none, { Calls.zero with modImage := m, judgeImage := j })
        | (some (.error e), j) =>
          (some (.error e), { Calls.zero with modImage := m, judgeImage := j })
        | (some (.ok nova_img_result), j) =>
          let decision :=
            if nova_img_result == "GUARDRAIL_INTERVENED" then
              { decision with nova := "GUARDRAIL_INTERVENED" }
            else decision
          (some (.ok decision), { Calls.zero with modImage := m, judgeImage := j })

/- guard (src/main.py:304-322): fresh all-'NONE' decision; if text is given,
   run guard_text and guard_nova_text and fold each result in; if an image
   path is given, delegate to handle_image; return the decision. -/
def guard (env : Env) (guard_content : Option String) (img_path : Option String)
    (fuel : Nat) : Option (Except PyError Decision) × Calls :=
  let decision : Decision := { guardrails := "NONE", nova := "NONE" }
  match guard_content with
  | none =>
    (match img_path with
     | none => (some (.ok decision), Calls.zero)
     | some p => handle_image env decision p fuel)
  | some content =>
    match guard_text_fn env content with
    | .error e => (some (.error (.transport e)), { Calls.zero with modText := 1 })
    | .ok text_result =>
      let decision :=
        if PyVal.eqStr text_result "GUARDRAIL_INTERVENED" then
          { decision with guardrails := "GUARDRAIL_INTERVENED" }
        else decision
      match guard_nova_text env content fuel with
      | (none, j) => (none, { Calls.zero with modText := 1, judgeText := j })
      | (some (.error e), j) =>
        (some (.error e), { Calls.zero with modText := 1, judgeText := j })
      | (some (.ok nova_text_result), j) =>
        let decision :=
          if nova_text_result == "GUARDRAIL_INTERVENED" then
            { decision with nova := "GUARDRAIL_INTERVENED" }
          else decision
        match img_path with
        | none => (some (.ok decision), { Calls.zero with modText := 1, judgeText := j })
        | some p =>
          let r := handle_image env decision p fuel
          (r.1, { r.2 with modText := 1, judgeText := j })

/- A baseline environment for concrete evaluations: moderation responses are
   empty objects, the judge always replies "NONE", the filesystem is empty. -/
def baseEnv : Env :=
  { modText := fun _ => .ok []
    modImage := fun _ _ => .ok []
    judgeText := fun _ _ => .reply "NONE"
    judgeImage := fun _ _ => .reply "NONE"
    fs := fun _ => none }

/- Environment whose moderation endpoint reports an intervention in its
   structured response (`action` field), while the judge replies "NONE". -/
def envModIntervenes : Env :=
  { baseEnv with
    modText := fun _ => .ok [("action", .str "GUARDRAIL_INTERVENED")] }

/- Environment whose judge text endpoint replies "maybe?" on the first attempt
   and "NONE" from the second attempt on. -/
def envRetryOnce : Env :=
  { baseEnv with
    judgeText := fun _ n => if n = 0 then .reply "maybe?" else .reply "NONE" }

/- Environment whose judge text endpoint always replies "maybe?". -/
def envAlwaysMalformed : Env :=
  { baseEnv with judgeText := fun _ _ => .reply "maybe?" }

/- Environment whose judge text endpoint raises a transport error. -/
def envJudgeRaises : Env :=
  { baseEnv with judgeText := fun _ _ => .err ⟨"ServiceUnavailableException"⟩ }

/- An image blob one byte over the 4 MiB cap. -/
def bigBlob : Blob := List.replicate (MAX_IMAGE_SIZE + 1) 0

/- Environment whose filesystem holds the oversized blob at 'big.png'. -/
def envBigImage : Env :=
  { baseEnv with fs := fun p => if p = "big.png" then some bigBlob else none }

/- Retry-loop facts shared by several claim proofs. -/

theorem nova_retry_loop_first_valid (n : Nat) :
    ∀ (replies : Nat → JudgeOutcome) (t : String) (fuel : Nat),
      (∀ i, i < n → ∃ s, replies i = .reply s ∧ validToken s = false) →
      replies n = .reply t → validToken t = true → n < fuel →
      nova_retry_loop replies fuel = (some (.ok t), n + 1) := by
  induction n with
  | zero =>
    intro replies t fuel _ hn hv hf
    match fuel, hf with
    | fuel + 1, _ => simp [nova_retry_loop, hn, hv]
  | succ n ih =>
    intro replies t fuel hInv hn hv hf
    match fuel, hf with
    | fuel + 1, hf =>
      obtain ⟨s, hs, hsInv⟩ := hInv 0 (Nat.succ_pos n)
      have hrec := ih (fun i => replies (i + 1)) t fuel
        (fun i hi => hInv (i + 1) (Nat.succ_lt_succ hi)) hn hv
        (Nat.lt_of_succ_lt_succ hf)
      simp [nova_retry_loop, hs, hsInv, hrec]

theorem nova_retry_loop_all_invalid (fuel : Nat) :
    ∀ replies : Nat → JudgeOutcome,
      (∀ i, ∃ s, replies i = .reply s ∧ validToken s = false) →
      nova_retry_loop replies fuel = (none, fuel) := by
  induction fuel with
  | zero => intro replies _; rfl
  | succ fuel ih =>
    intro replies hInv
    obtain ⟨s, hs, hsInv⟩ := hInv 0
    have hrec := ih (fun i => replies (i + 1)) (fun i => hInv (i + 1))
    simp [nova_retry_loop, hs, hsInv, hrec]

theorem nova_retry_loop_ok_sound (fuel : Nat) :
    ∀ (replies : Nat → JudgeOutcome) (t : String) (m : Nat),
      nova_retry_loop replies fuel = (some (.ok t), m) →
      ∃ n, m = n + 1 ∧ replies n = .reply t ∧ validToken t = true ∧
        ∀ i, i < n → ∃ s, replies i = .reply s ∧ validToken s = false := by
  induction fuel with
  | zero => intro replies t m h; simp [nova_retry_loop] at h
  | succ fuel ih =>
    intro replies t m h
    rcases hr0 : replies 0 with t0 | e
    · rcases hv : validToken t0
      · simp only [nova_retry_loop, hr0, hv, Bool.false_eq_true, if_false] at h
        rcases hrec : nova_retry_loop (fun n => replies (n + 1)) fuel with ⟨r1, r2⟩
        rw [hrec] at h
        simp only [Prod.mk.injEq] at h
        obtain ⟨h1, h2⟩ := h
        obtain ⟨n, hn, hrep, hvt, hearlier⟩ := ih _ t r2 (by rw [hrec, h1])
        refine ⟨n + 1, by omega, hrep, hvt, ?_⟩
        intro i hi
        cases i with
        | zero => exact ⟨t0, hr0, hv⟩
        | succ j => exact hearlier j (Nat.lt_of_succ_lt_succ hi)
      · simp only [nova_retry_loop, hr0, hv, if_true] at h
        simp only [Prod.mk.injEq, Option.some.injEq, Except.ok.injEq] at h
        obtain ⟨h1, h2⟩ := h
        exact ⟨0, by omega, by rw [hr0, h1], by rw [← h1]; exact hv, by omega⟩
    · simp only [nova_retry_loop, hr0] at h
      simp at h

theorem nova_retry_loop_no_value_error (fuel : Nat) :
    ∀ (replies : Nat → JudgeOutcome) (m : String),
      (nova_retry_loop replies fuel).1 ≠ some (.error (.valueError m)) := by
  induction fuel with
  | zero => intro replies m; simp [nova_retry_loop]
  | succ fuel ih =>
    intro replies m
    rcases hr0 : replies 0 with t0 | e
    · rcases hv : validToken t0
      · simpa [nova_retry_loop, hr0, hv] using ih (fun n => replies (n + 1)) m
      · simp [nova_retry_loop, hr0, hv]
    · simp [nova_retry_loop, hr0]

theorem nova_retry_loop_calls_pos (fuel : Nat) (replies : Nat → JudgeOutcome)
    (hf : 0 < fuel) : 1 ≤ (nova_retry_loop replies fuel).2 := by
  match fuel, hf with
  | fuel + 1, _ =>
    rcases hr0 : replies 0 with t0 | e
    · rcases hv : validToken t0
      · simp [nova_retry_loop, hr0, hv]
      · simp [nova_retry_loop, hr0, hv]
    · simp [nova_retry_loop, hr0]

/- Whenever handle_image returns a decision normally, each key is either the
   caller's value for that key or 'GUARDRAIL_INTERVENED'. -/
theorem handle_image_ok_keys (env : Env) (d : Decision) (path : String) (fuel : Nat)
    (d' : Decision) (h : (handle_image env d path fuel).1 = some (.ok d')) :
    (d'.guardrails = d.guardrails ∨ d'.guardrails = "GUARDRAIL_INTERVENED") ∧
    (d'.nova = d.nova ∨ d'.nova = "GUARDRAIL_INTERVENED") := by
  rcases hfs : env.fs path with _ | blob
  · simp only [handle_image, hfs, Option.some.injEq, Except.ok.injEq] at h
    subst h; exact ⟨Or.inl rfl, Or.inl rfl⟩
  · rcases hext : decide_ext path with _ | ext
    · simp only [handle_image, hfs, hext, Option.some.injEq, Except.ok.injEq] at h
      subst h; exact ⟨Or.inl rfl, Or.inl rfl⟩
    · rcases hgi : guard_image_fn env blob ext with ⟨gr, m⟩
      rcases gr with ge | r1
      · simp [handle_image, hfs, hext, hgi] at h
      · rcases hni : guard_nova_image env blob ext fuel with ⟨no, j⟩
        rcases no with _ | nx
        · simp [handle_image, hfs, hext, hgi, hni] at h
        · rcases nx with ne | ns
          · simp [handle_image, hfs, hext, hgi, hni] at h
          · rcases hc1 : PyVal.eqStr r1 "GUARDRAIL_INTERVENED" <;>
              rcases hc2 : ns == "GUARDRAIL_INTERVENED" <;>
              simp only [handle_image, hfs, hext, hgi, hni, hc1, hc2, if_true, if_false,
                Bool.false_eq_true, Option.some.injEq, Except.ok.injEq] at h <;>
              subst h <;> constructor <;> simp

/- Whenever guard returns a decision normally, each key is 'NONE' or
   'GUARDRAIL_INTERVENED'. -/
theorem guard_ok_keys (env : Env) (c p : Option String) (fuel : Nat) (d' : Decision)
    (h : (guard env c p fuel).1 = some (.ok d')) :
    (d'.guardrails = "NONE" ∨ d'.guardrails = "GUARDRAIL_INTERVENED") ∧
    (d'.nova = "NONE" ∨ d'.nova = "GUARDRAIL_INTERVENED") := by
  rcases c with _ | content
  · rcases p with _ | path
    · simp only [guard, Option.some.injEq, Except.ok.injEq] at h
      subst h; exact ⟨Or.inl rfl, Or.inl rfl⟩
    · exact handle_image_ok_keys env ⟨"NONE", "NONE"⟩ path fuel d' h
  · rcases hgt : env.modText content with e | entries
    · simp [guard, guard_text_fn, hgt, Except.map] at h
    · rcases hnt : guard_nova_text env content fuel with ⟨no, j⟩
      rcases no with _ | nx
      · simp [guard, guard_text_fn, hgt, Except.map, hnt] at h
      · rcases nx with ne | ns
        · simp [guard, guard_text_fn, hgt, Except.map, hnt] at h
        · rcases hs : ns == "GUARDRAIL_INTERVENED" <;>
            simp only [guard, guard_text_fn, hgt, Except.map, hnt, hs, PyVal.eqStr,
              Bool.false_eq_true, if_true, if_false] at h
          · rcases p with _ | path
            · simp only [Option.some.injEq, Except.ok.injEq] at h
              subst h; exact ⟨Or.inl rfl, Or.inl rfl⟩
            · obtain ⟨hg, hn⟩ := handle_image_ok_keys env ⟨"NONE", "NONE"⟩ path fuel d' h
              exact ⟨hg, hn⟩
          · rcases p with _ | path
            · simp only [Option.some.injEq, Except.ok.injEq] at h
              subst h; exact ⟨Or.inl rfl, Or.inr rfl⟩
            · obtain ⟨hg, hn⟩ := handle_image_ok_keys env ⟨"NONE", "GUARDRAIL_INTERVENED"⟩ path fuel d' h
              refine ⟨hg, ?_⟩
              rcases hn with hn | hn
              · exact Or.inr hn
              · exact Or.inr hn

/-- C8: with neither text nor image, guard makes no client call and returns the
all-clear default decision; this is not an error. -/
theorem guard_no_input_all_clear (env : Env) (fuel : Nat) :
    guard env none none fuel =
      (some (.ok { guardrails := "NONE", nova := "NONE" }), Calls.zero) := rfl

/-- C1: the claim fails on the code.  guard_text returns the raw structured
response (a dict) and guard compares that dict against the string
'GUARDRAIL_INTERVENED' (src/main.py:311) — in Python a dict never equals a
str, so even when the moderation response carries action
'GUARDRAIL_INTERVENED' and the judge replies NONE, guard leaves the
'guardrails' key at 'NONE' instead of the intervened value the claim (and the
code's own comment at src/main.py:295) requires. -/
theorem guard_loses_moderation_intervention :
    envModIntervenes.modText "FuckFuck" =
      .ok [("action", .str "GUARDRAIL_INTERVENED")] ∧
    guard envModIntervenes (some "FuckFuck") none 1 =
      (some (.ok { guardrails := "NONE", nova := "NONE" }), ⟨1, 0, 1, 0⟩) :=
  ⟨rfl, rfl⟩

/-- C2: a first reply whose first text segment is not one of the two accepted
tokens followed by a second reply 'NONE' makes guard_nova_text return 'NONE'
with exactly two endpoint invocations; and any token guard_nova_text ever
returns is a valid one, so a malformed reply is never surfaced. -/
theorem guard_nova_text_retry_then_clear (env : Env) (content t0 : String) (fuel : Nat)
    (h0 : env.judgeText (guard_nova_text_request content) 0 = .reply t0)
    (hinv : validToken t0 = false)
    (h1 : env.judgeText (guard_nova_text_request content) 1 = .reply "NONE")
    (hf : 2 ≤ fuel) :
    guard_nova_text env content fuel = (some (.ok "NONE"), 2) ∧
    ∀ fuel' t m, guard_nova_text env content fuel' = (some (.ok t), m) →
      validToken t = true := by
  constructor
  · unfold guard_nova_text
    refine nova_retry_loop_first_valid 1 _ "NONE" fuel ?_ h1 (by decide) (by omega)
    intro i hi
    interval_cases i
    exact ⟨t0, h0, hinv⟩
  · intro fuel' t m h
    obtain ⟨n, _, _, hvt, _⟩ := nova_retry_loop_ok_sound fuel' _ t m h
    exact hvt

theorem guard_nova_text_retry_then_clear_witness :
    guard_nova_text envRetryOnce "hello" 2 = (some (.ok "NONE"), 2) :=
  (guard_nova_text_retry_then_clear envRetryOnce "hello" "maybe?" 2 rfl (by decide)
    rfl (by omega)).1

/-- C3: a transport error from the judge endpoint is re-raised unchanged after
exactly one invocation, and guard with a text input propagates it (one
moderation call, one judge call, no decision returned). -/
theorem guard_transport_error_propagates (env : Env) (content : String)
    (e : TransportError) (r : List (String × PyVal)) (fuel : Nat)
    (hj : env.judgeText (guard_nova_text_request content) 0 = .err e)
    (hm : env.modText content = .ok r) (hf : 0 < fuel) :
    guard_nova_text env content fuel = (some (.error (.transport e)), 1) ∧
    guard env (some content) none fuel =
      (some (.error (.transport e)), ⟨1, 0, 1, 0⟩) := by
  have hloop : guard_nova_text env content fuel = (some (.error (.transport e)), 1) := by
    unfold guard_nova_text
    match fuel, hf with
    | fuel + 1, _ => simp [nova_retry_loop, hj]
  refine ⟨hloop, ?_⟩
  rcases hes : PyVal.eqStr (.dict r) "GUARDRAIL_INTERVENED" <;>
    simp [guard, guard_text_fn, hm, Except.map, hloop, hes, Calls.zero]

theorem guard_transport_error_propagates_witness :
    guard_nova_text envJudgeRaises "hi" 3 =
      (some (.error (.transport ⟨"ServiceUnavailableException"⟩)), 1) ∧
    guard envJudgeRaises (some "hi") none 3 =
      (some (.error (.transport ⟨"ServiceUnavailableException"⟩)), ⟨1, 0, 1, 0⟩) :=
  guard_transport_error_propagates envJudgeRaises "hi"
    ⟨"ServiceUnavailableException"⟩ [] 3 rfl rfl (by omega)

/-- C4: an image blob longer than 4 * 1024 * 1024 bytes makes guard_image raise
the size-limit ValueError with zero moderation-endpoint calls; a blob at or
under the cap raises no such error (the single call's outcome is whatever the
endpoint returns). -/
theorem guard_image_size_cap (env : Env) (blob : Blob) (fmt : String) :
    (MAX_IMAGE_SIZE < blob.length →
       guard_image_fn env blob fmt =
         (.error (.valueError (sizeErrMsg blob.length)), 0)) ∧
    (blob.length ≤ MAX_IMAGE_SIZE →
       (guard_image_fn env blob fmt).2 = 1 ∧
       ∀ m, (guard_image_fn env blob fmt).1 ≠ .error (.valueError m)) := by
  constructor
  · intro hbig
    simp [guard_image_fn, hbig]
  · intro hsmall
    have hnot : ¬ MAX_IMAGE_SIZE < blob.length := by omega
    constructor
    · rcases hmi : env.modImage blob fmt with e | entries <;>
        simp [guard_image_fn, hnot, hmi]
    · intro m
      rcases hmi : env.modImage blob fmt with e | entries <;>
        simp [guard_image_fn, hnot, hmi]

theorem guard_image_size_cap_witness :
    guard_image_fn baseEnv bigBlob "png" =
      (.error (.valueError (sizeErrMsg bigBlob.length)), 0) ∧
    (guard_image_fn baseEnv [] "png").2 = 1 := by
  refine ⟨(guard_image_size_cap baseEnv bigBlob "png").1 ?_,
    ((guard_image_size_cap baseEnv [] "png").2 ?_).1⟩
  · unfold bigBlob
    rw [List.length_replicate]
    omega
  · simp

/-- C5: the validate-and-retry loop of guard_nova_text returns normally at
attempt n exactly when n is the first attempt whose reply's first text segment
is 'GUARDRAIL_INTERVENED' or 'NONE' (no earlier attempt raising); when every
reply is present but invalid the loop never returns — at every fuel bound it
is still running, having spent exactly fuel endpoint calls, with no retry cap
or backoff. -/
theorem guard_nova_text_first_valid_token (env : Env) (content : String) :
    (∀ n t,
       (∀ i, i < n → ∃ s, env.judgeText (guard_nova_text_request content) i = .reply s ∧
          validToken s = false) →
       env.judgeText (guard_nova_text_request content) n = .reply t →
       validToken t = true →
       ∀ fuel, n < fuel → guard_nova_text env content fuel = (some (.ok t), n + 1)) ∧
    (∀ fuel t m, guard_nova_text env content fuel = (some (.ok t), m) →
       ∃ n, m = n + 1 ∧
         env.judgeText (guard_nova_text_request content) n = .reply t ∧
         validToken t = true ∧
         ∀ i, i < n → ∃ s, env.judgeText (guard_nova_text_request content) i = .reply s ∧
           validToken s = false) ∧
    ((∀ i, ∃ s, env.judgeText (guard_nova_text_request content) i = .reply s ∧
        validToken s = false) →
       ∀ fuel, guard_nova_text env content fuel = (none, fuel)) := by
  refine ⟨?_, ?_, ?_⟩
  · intro n t hInv hn hv fuel hf
    exact nova_retry_loop_first_valid n _ t fuel hInv hn hv hf
  · intro fuel t m h
    exact nova_retry_loop_ok_sound fuel _ t m h
  · intro hInv fuel
    exact nova_retry_loop_all_invalid fuel _ hInv

theorem guard_nova_text_first_valid_token_witness :
    guard_nova_text envRetryOnce "hi" 5 = (some (.ok "NONE"), 2) ∧
    guard_nova_text envAlwaysMalformed "hi" 7 = (none, 7) := by
  constructor
  · refine (guard_nova_text_first_valid_token envRetryOnce "hi").1 1 "NONE" ?_ rfl
      (by decide) 5 (by omega)
    intro i hi
    interval_cases i
    exact ⟨"maybe?", rfl, by decide⟩
  · exact (guard_nova_text_first_valid_token envAlwaysMalformed "hi").2.2
      (fun i => ⟨"maybe?", rfl, by decide⟩) 7

/-- C6: a missing image file, or an existing one whose lowercased path contains
none of 'jpg', 'jpeg', 'png', is not an error: guard with only that image
returns the all-clear decision with zero endpoint calls, and handle_image
returns the caller's decision unchanged. -/
theorem guard_skips_missing_or_unsupported_image (env : Env) (path : String)
    (fuel : Nat) (d : Decision)
    (h : env.fs path = none ∨
         (strIn "jpg" (strLower path) = false ∧ strIn "jpeg" (strLower path) = false ∧
          strIn "png" (strLower path) = false)) :
    guard env none (some path) fuel = (some (.ok ⟨"NONE", "NONE"⟩), Calls.zero) ∧
    handle_image env d path fuel = (some (.ok d), Calls.zero) := by
  have hh : ∀ d0 : Decision, handle_image env d0 path fuel = (some (.ok d0), Calls.zero) := by
    intro d0
    rcases h with hfs | ⟨h1, h2, h3⟩
    · simp [handle_image, hfs]
    · rcases hfs : env.fs path with _ | blob
      · simp [handle_image, hfs]
      · have hext : decide_ext path = none := by simp [decide_ext, h1, h2, h3]
        simp [handle_image, hfs, hext]
  exact ⟨hh ⟨"NONE", "NONE"⟩, hh d⟩

theorem guard_skips_missing_or_unsupported_image_witness :
    guard baseEnv none (some "photo.JPG") 1 =
      (some (.ok ⟨"NONE", "NONE"⟩), Calls.zero) ∧
    handle_image baseEnv ⟨"NONE", "NONE"⟩ "photo.JPG" 1 =
      (some (.ok ⟨"NONE", "NONE"⟩), Calls.zero) :=
  guard_skips_missing_or_unsupported_image baseEnv "photo.JPG" 1 ⟨"NONE", "NONE"⟩
    (Or.inl rfl)

/-- C7: every decision guard returns normally has both keys in the two-valued
verdict set {'NONE', 'GUARDRAIL_INTERVENED'}, and the image phase never resets
a key already set to 'GUARDRAIL_INTERVENED' (monotone OR folding). -/
theorem guard_decision_keys_enum_and_monotone (env : Env) (c p : Option String)
    (fuel : Nat) (d : Decision) (path : String) :
    (∀ d', (guard env c p fuel).1 = some (.ok d') →
       (d'.guardrails = "NONE" ∨ d'.guardrails = "GUARDRAIL_INTERVENED") ∧
       (d'.nova = "NONE" ∨ d'.nova = "GUARDRAIL_INTERVENED")) ∧
    (∀ d', (handle_image env d path fuel).1 = some (.ok d') →
       (d.guardrails = "GUARDRAIL_INTERVENED" → d'.guardrails = "GUARDRAIL_INTERVENED") ∧
       (d.nova = "GUARDRAIL_INTERVENED" → d'.nova = "GUARDRAIL_INTERVENED")) := by
  constructor
  · intro d' h
    exact guard_ok_keys env c p fuel d' h
  · intro d' h
    obtain ⟨hg, hn⟩ := handle_image_ok_keys env d path fuel d' h
    constructor
    · intro hd
      rcases hg with hg | hg
      · rw [hg, hd]
      · exact hg
    · intro hd
      rcases hn with hn | hn
      · rw [hn, hd]
      · exact hn

theorem guard_decision_keys_enum_and_monotone_witness :
    ((Decision.guardrails ⟨"NONE", "NONE"⟩ = "NONE" ∨
      Decision.guardrails ⟨"NONE", "NONE"⟩ = "GUARDRAIL_INTERVENED") ∧
     (Decision.nova ⟨"NONE", "NONE"⟩ = "NONE" ∨
      Decision.nova ⟨"NONE", "NONE"⟩ = "GUARDRAIL_INTERVENED")) ∧
    ((Decision.guardrails ⟨"GUARDRAIL_INTERVENED", "NONE"⟩ = "GUARDRAIL_INTERVENED" →
      Decision.guardrails ⟨"GUARDRAIL_INTERVENED", "NONE"⟩ = "GUARDRAIL_INTERVENED") ∧
     (Decision.nova ⟨"GUARDRAIL_INTERVENED", "NONE"⟩ = "GUARDRAIL_INTERVENED" →
      Decision.nova ⟨"GUARDRAIL_INTERVENED", "NONE"⟩ = "GUARDRAIL_INTERVENED")) :=
  ⟨(guard_decision_keys_enum_and_monotone baseEnv (some "hi") none 1
      ⟨"GUARDRAIL_INTERVENED", "NONE"⟩ "img.png").1 ⟨"NONE", "NONE"⟩ rfl,
   (guard_decision_keys_enum_and_monotone baseEnv (some "hi") none 1
      ⟨"GUARDRAIL_INTERVENED", "NONE"⟩ "img.png").2 ⟨"GUARDRAIL_INTERVENED", "NONE"⟩ rfl⟩

/-- C9: the image content block guard_nova_image sends to the judge endpoint
carries the literal format tag 'jpeg' whatever the img_format argument — in
particular for an image resolved as 'png' — and guard_nova_image sends exactly
that request on every attempt. -/
theorem guard_nova_image_format_always_jpeg :
    (∀ (blob : Blob) (fmt : String),
       (guard_nova_image_request blob fmt).image.format = "jpeg") ∧
    (∀ blob : Blob, (guard_nova_image_request blob "png").image.format = "jpeg") ∧
    (∀ (env : Env) (blob : Blob) (fmt : String) (fuel : Nat),
       guard_nova_image env blob fmt fuel =
         nova_retry_loop (env.judgeImage (guard_nova_image_request blob fmt)) fuel) :=
  ⟨fun _ _ => rfl, fun _ => rfl, fun _ _ _ _ => rfl⟩

/-- C10: guard_nova_image performs no size validation — with any fuel it goes
straight to the endpoint (at least one call once fuel is positive) and can
never raise the size-limit ValueError; the 4 MiB cap lives only in guard_image,
which in handle_image runs first, so on an oversized supported image the
ValueError propagates with zero judge-image calls. -/
theorem guard_nova_image_no_size_check (env : Env) (blob : Blob) (fmt : String)
    (fuel : Nat) (d : Decision) (path : String) (e : String) :
    (0 < fuel → 1 ≤ (guard_nova_image env blob fmt fuel).2) ∧
    (∀ m, (guard_nova_image env blob fmt fuel).1 ≠ some (.error (.valueError m))) ∧
    (env.fs path = some blob → MAX_IMAGE_SIZE < blob.length →
       decide_ext path = some e →
       handle_image env d path fuel =
         (some (.error (.valueError (sizeErrMsg blob.length))), Calls.zero)) := by
  refine ⟨?_, ?_, ?_⟩
  · intro hf
    exact nova_retry_loop_calls_pos fuel _ hf
  · intro m
    exact nova_retry_loop_no_value_error fuel _ m
  · intro hfs hbig hext
    have hgi : guard_image_fn env blob e =
        (.error (.valueError (sizeErrMsg blob.length)), 0) := by
      simp [guard_image_fn, hbig]
    simp [handle_image, hfs, hext, hgi, Calls.zero]

theorem guard_nova_image_no_size_check_witness :
    1 ≤ (guard_nova_image envBigImage bigBlob "png" 5).2 ∧
    (guard_nova_image envBigImage bigBlob "png" 5).1 ≠
      some (.error (.valueError "x")) ∧
    handle_image envBigImage ⟨"NONE", "NONE"⟩ "big.png" 5 =
      (some (.error (.valueError (sizeErrMsg bigBlob.length))), Calls.zero) := by
  have T := guard_nova_image_no_size_check envBigImage bigBlob "png" 5
    ⟨"NONE", "NONE"⟩ "big.png" "png"
  refine ⟨T.1 (by omega), T.2.1 "x", T.2.2 ?_ ?_ ?_⟩
  · simp [envBigImage, baseEnv]
  · unfold bigBlob
    rw [List.length_replicate]
    omega
  · decide

end Moderation
